import Mathlib

/-!
Shallow embedding of the DaSystem log-service worker (src/index.js).

The worker receives HTTP POST requests, dispatches `/api` to a direct
authenticated handler and `/ably` to a webhook batch handler, both of which
feed a shared ingestion pipeline (`handleApiRequest`) that validates a
payload, inserts a row into the D1 table, and forwards high-severity events
to Telegram.

Modelling choices:
* JavaScript values reaching the handlers are modelled by `JVal`, with JS
  truthiness (`JVal.truthy`), JS numeric coercion for the `level >= 3`
  comparison (`JVal.toNumber`, restricted to integer-valued results; `none`
  plays the role of NaN), and JS string coercion (`JVal.jsToString`).
* The JS runtime's `JSON.parse` (used by `request.json()` and by the webhook
  handler) is external to the source file; it is modelled as a function
  `World.jsonParse : String → Except String JVal` carried by the ambient
  `World`, whose `Except.error` case is a thrown parse exception carrying
  the exception message.
* The two external collaborators are modelled by the `World` as well: the D1
  insert either succeeds or throws (`World.dbError`), and the Telegram
  `fetch` either succeeds or throws (`World.fetchFails`).
* Observable side effects (D1 insert calls, Notification Sender invocations,
  error-notification-path invocations, raw Telegram fetches) are recorded in
  a trace of `Event`s; every embedded function returns its trace alongside
  its result, and a thrown JS exception is an `Except.error` carrying the
  exception message.
* Plain property access on `null`/`undefined` throws a TypeError in JS; it
  is modelled by `JVal.getEx`. Two such reads are live error paths of the
  worker: `body.request_id` (index.js:70) throws uncaught out of the API
  handler when the body parses to JSON `null`, and `msg.data`
  (index.js:115) as well as `body.items` (index.js:105) throw into the
  webhook handler's outer catch, which reports and answers 500. Optional
  chaining (`msgpayload?.payload`, index.js:128) maps a nullish base to
  `undefined` and is modelled by the non-throwing `JVal.get`.
* The mutable globals `G_ENV`/`G_DB` are threaded explicitly: handlers
  receive the global value `g0` that was current when the request arrived
  and pass `some env` downstream only after the source line that assigns
  `G_ENV = env` has executed.
-/

/-- JavaScript values as they occur in this worker (integer-valued numbers
only; the worker never produces non-integer numbers of its own). -/
inductive JVal where
  | undef : JVal
  | null : JVal
  | bool : Bool → JVal
  | num : Int → JVal
  | str : String → JVal
  | arr : List JVal → JVal
  | obj : List (String × JVal) → JVal

/-- JS strict equality against `undefined` (`v === undefined`). -/
def JVal.isUndef : JVal → Bool
  | JVal.undef => true
  | _ => false

/-- Is the value `null` or `undefined`? Property access on such a base
throws a TypeError in JS. -/
def JVal.nullish : JVal → Bool
  | JVal.undef => true
  | JVal.null => true
  | _ => false

/-- Property lookup on a NON-nullish base: field lookup on objects,
`undefined` on other bases (no relevant string/array built-in properties
are read by the worker); absent fields read as `undefined`, as in JS.
On a nullish base this returns `undefined`, which is the semantics of JS
OPTIONAL chaining `v?.k` (used at `msgpayload?.payload`, index.js:128);
plain JS property access on a nullish base instead throws — that is
`JVal.getEx` below, and every plain access in the handlers goes through it
or is guarded by a preceding successful access on the same base. -/
def JVal.get : JVal → String → JVal
  | JVal.obj fields, k =>
    match fields.find? (fun p => p.1 == k) with
    | some p => p.2
    | none => JVal.undef
  | _, _ => JVal.undef

/-- Plain JS property access `v.k` as an operation that can throw:
reading a property of `null` or `undefined` throws a TypeError (carrying
the exception message); otherwise it is the ordinary lookup. -/
def JVal.getEx : JVal → String → Except String JVal
  | JVal.undef, k =>
    Except.error ("TypeError: Cannot read properties of undefined (reading " ++ k ++ ")")
  | JVal.null, k =>
    Except.error ("TypeError: Cannot read properties of null (reading " ++ k ++ ")")
  | v, k => Except.ok (v.get k)

/-- JS truthiness: `undefined`, `null`, `false`, `0`, `""` are falsy;
objects and arrays are always truthy. -/
def JVal.truthy : JVal → Bool
  | JVal.undef => false
  | JVal.null => false
  | JVal.bool b => b
  | JVal.num n => !(n == 0)
  | JVal.str s => !s.isEmpty
  | JVal.arr _ => true
  | JVal.obj _ => true

/-- Is the value a JS array (`Array.isArray`)? -/
def JVal.isArr : JVal → Bool
  | JVal.arr _ => true
  | _ => false

/-- Does `typeof v` evaluate to `"object"`? True for `null`, arrays and
plain objects. -/
def JVal.typeofObject : JVal → Bool
  | JVal.null => true
  | JVal.arr _ => true
  | JVal.obj _ => true
  | _ => false

/-- The element list of an array value (empty for non-arrays). -/
def JVal.arrElems : JVal → List JVal
  | JVal.arr xs => xs
  | _ => []

/-- JS `String.prototype.startsWith`. -/
def jsStartsWith (s pre : String) : Bool := pre.data.isPrefixOf s.data

/-- Worker for `jsSplitChar`: split a character list at a separator,
accumulating the current piece in reverse. -/
def jsSplitAux (sep : Char) : List Char → List Char → List String
  | [], acc => [String.mk acc.reverse]
  | c :: rest, acc =>
    if c = sep then String.mk acc.reverse :: jsSplitAux sep rest []
    else jsSplitAux sep rest (c :: acc)

/-- JS `String.prototype.split` with a single-character separator. -/
def jsSplitChar (s : String) (sep : Char) : List String := jsSplitAux sep s.data []

/-- JS whitespace for `ToNumber` string trimming. -/
def isWsChar (c : Char) : Bool := c = ' ' ∨ c = '\t' ∨ c = '\n' ∨ c = '\r'

/-- Parse a non-empty run of decimal digits; `none` on any non-digit. -/
def parseDigits : List Char → Option Nat
  | [] => none
  | ds => ds.foldl (fun acc c =>
      match acc with
      | none => none
      | some n => if c.isDigit then some (n * 10 + (c.toNat - 48)) else none) (some 0)

/-- JS `ToNumber` on a string, restricted to the integer grammar: trim
whitespace, empty means `0`, optional sign then decimal digits; anything
else is NaN (`none`). -/
def strToNumber (s : String) : Option Int :=
  let l := ((s.data.dropWhile isWsChar).reverse.dropWhile isWsChar).reverse
  match l with
  | [] => some 0
  | c :: ds =>
    if c = '-' then (parseDigits ds).map (fun n => -(n : Int))
    else if c = '+' then (parseDigits ds).map (fun n => (n : Int))
    else (parseDigits (c :: ds)).map (fun n => (n : Int))

/-- JS `ToNumber` restricted to integer results; `none` stands for NaN.
Strings go through trimming and integer parsing (the worker only compares
`level >= 3`, and non-numeric strings compare as NaN, i.e. false). A
singleton array converts through its element, the empty array to `0`,
larger arrays and plain objects to NaN. -/
def JVal.toNumber : JVal → Option Int
  | JVal.undef => none
  | JVal.null => some 0
  | JVal.bool b => some (if b then 1 else 0)
  | JVal.num n => some n
  | JVal.str s => strToNumber s
  | JVal.arr [] => some 0
  | JVal.arr [v] => v.toNumber
  | JVal.arr (_ :: _ :: _) => none
  | JVal.obj _ => none

/-- JS `v >= n` for a numeric literal `n`: both sides via `ToNumber`,
any NaN makes the comparison false. -/
def JVal.jsGeInt (v : JVal) (n : Int) : Bool :=
  match v.toNumber with
  | none => false
  | some m => n ≤ m

/-- JS `String(v)` coercion for the values this worker interpolates into
template strings. Array elements are joined by commas with
`null`/`undefined` elements rendered empty, as in JS
`Array.prototype.toString`. -/
def JVal.jsToString : JVal → String
  | JVal.undef => "undefined"
  | JVal.null => "null"
  | JVal.bool b => if b then "true" else "false"
  | JVal.num n => toString n
  | JVal.str s => s
  | JVal.arr xs => elems xs
  | JVal.obj _ => "[object Object]"
where
  elems : List JVal → String
  | [] => ""
  | [JVal.undef] => ""
  | [JVal.null] => ""
  | [v] => JVal.jsToString v
  | JVal.undef :: rest => "," ++ elems rest
  | JVal.null :: rest => "," ++ elems rest
  | v :: rest => JVal.jsToString v ++ "," ++ elems rest

/-- The worker's environment bindings (`env`). Each is a string binding
that may be absent (`none` models an unset binding, i.e. `undefined`). -/
structure Env where
  DA_WRITETOKEN : Option String
  ABLY_WEBHOOK_SECRET : Option String
  LOG_TELEGRAM_BOT_TOKEN : Option String
  LOG_TELEGRAM_CHAT_ID : Option String

/-- Truthiness of an environment binding (`!botToken` style checks). -/
def envTruthy : Option String → Bool
  | none => false
  | some s => !s.isEmpty

/-- The external runtime: the JS `JSON.parse` (an `Except.error` is a thrown
`SyntaxError` carrying the exception message), the D1 insert outcome
(`some e` makes `.run()` throw with message `e`), and whether the Telegram
`fetch` throws. -/
structure World where
  jsonParse : String → Except String JVal
  dbError : Option String
  fetchFails : Bool

/-- Observable side effects, in execution order: a D1 `INSERT` into `log1`
with the four bound values, an invocation of the Notification Sender
(`messageTelegram`), an invocation of the error-notification path
(`errDelegate`), and a raw Telegram `fetch` with the message text. -/
inductive Event where
  | insert : JVal → JVal → JVal → JVal → Event
  | notify : JVal → Event
  | errDel : String → Event
  | telegramFetch : String → Event

/-- The body of an HTTP response produced by the worker: an ack envelope,
a nack envelope, or plain text. -/
inductive RespBody where
  | ack : JVal → RespBody
  | nack : JVal → String → String → RespBody
  | text : String → RespBody

/-- An HTTP response: status code plus body. -/
structure Resp where
  status : Nat
  body : RespBody

/-- `jsonResponse(obj, status)`: a JSON response with the given status. -/
def jsonResponse (body : RespBody) (status : Nat) : Resp :=
  { status := status, body := body }

/-- The source's `ack(requestId)`: the positive acknowledgement envelope,
HTTP 200 (named `ackResp` here; `ack` is taken by Mathlib). -/
def ackResp (requestId : JVal) : Resp :=
  jsonResponse (RespBody.ack requestId) 200

/-- The source's `nack(requestId, code, message)`: the negative
acknowledgement envelope, always HTTP 400. -/
def nackResp (requestId : JVal) (code message : String) : Resp :=
  jsonResponse (RespBody.nack requestId code message) 400

/-- `new Response(text, {status})`: a plain-text response. -/
def textResp (status : Nat) (s : String) : Resp :=
  { status := status, body := RespBody.text s }

/-- Is the response a nack envelope? -/
def Resp.isNack : Resp → Bool
  | { status := _, body := RespBody.nack _ _ _ } => true
  | _ => false

/-- The code carried by a nack response, if it is one. -/
def Resp.nackCode : Resp → Option String
  | { status := _, body := RespBody.nack _ c _ } => some c
  | _ => none

/-- Is the event a D1 insert? -/
def Event.isInsert : Event → Bool
  | Event.insert _ _ _ _ => true
  | _ => false

/-- Is the event a Notification Sender invocation? -/
def Event.isNotify : Event → Bool
  | Event.notify _ => true
  | _ => false

/-- Is the event an error-notification-path invocation? -/
def Event.isErrDel : Event → Bool
  | Event.errDel _ => true
  | _ => false

/-- Number of D1 insert calls in a trace. -/
def countInserts (evs : List Event) : Nat :=
  (evs.filter Event.isInsert).length

/-- Number of Notification Sender invocations in a trace. -/
def countNotifies (evs : List Event) : Nat :=
  (evs.filter Event.isNotify).length

/-- Number of error-notification-path invocations in a trace. -/
def countErrDels (evs : List Event) : Nat :=
  (evs.filter Event.isErrDel).length

/-- The raw Telegram `fetch` call: the call itself is recorded; it throws
when the world says the transport fails. -/
def fetchTelegram (w : World) (text : String) : Except String Unit × List Event :=
  (if w.fetchFails then Except.error ("telegram fetch failed") else Except.ok (),
   [Event.telegramFetch text])

/-- `notifyTextTelegram(logData)`: no-op when `G_ENV` is unset or either
Telegram binding is falsy; otherwise performs the `fetch`. The whole body is
wrapped in try/catch, so a transport failure is swallowed and the function
never throws. -/
def notifyTextTelegram (g : Option Env) (w : World) (text : String) : List Event :=
  match g with
  | none => []
  | some env =>
    if ¬ envTruthy env.LOG_TELEGRAM_BOT_TOKEN ∨ ¬ envTruthy env.LOG_TELEGRAM_CHAT_ID then
      []
    else
      match fetchTelegram w text with
      | (Except.ok _, evs) => evs
      | (Except.error _, evs) => evs

/-- The template string built by `messageTelegram`. -/
def telegramFormat (logData : JVal) : String :=
  (logData.get ("message")).jsToString ++ "\n\n🧩 " ++
    (logData.get ("service")).jsToString ++ "/" ++
    (logData.get ("instance")).jsToString ++ "\n🔢 Level: " ++
    (logData.get ("level")).jsToString

/-- `messageTelegram(logData)`: the Notification Sender. Its invocation is
the observable `Event.notify`; it formats the message and hands it to
`notifyTextTelegram`. Its try/catch means it never throws. -/
def messageTelegram (g : Option Env) (w : World) (logData : JVal) : List Event :=
  Event.notify logData :: notifyTextTelegram g w (telegramFormat logData)

/-- `errDelegate(msg)`: the error-notification path. Its invocation is the
observable `Event.errDel`; it logs and forwards a prefixed text to
`notifyTextTelegram`. It never throws. -/
def errDelegate (g : Option Env) (w : World) (msg : String) : List Event :=
  Event.errDel msg :: notifyTextTelegram g w ("❌ *Error*\n" ++ msg)

/-- The D1 `INSERT INTO log1 ... .run()` call: the call is recorded, and it
throws when the world's storage fails. -/
def dbRun (w : World) (service inst level message : JVal) :
    Except String Unit × List Event :=
  (match w.dbError with
   | some e => Except.error e
   | none => Except.ok (),
   [Event.insert service inst level message])

/-- `handleApiRequest(requestId, payload)`: the shared Ingestion Pipeline.
The opening destructuring (index.js:32) throws a TypeError when `payload`
is nullish (both call sites guard against that with a truthiness check
before calling); otherwise it validates the four fields (`level` via
strict `=== undefined`), inserts the row, notifies Telegram when
`level >= 3`, and returns the ack. A thrown storage error propagates as
`Except.error`. -/
def handleApiRequest (g : Option Env) (w : World) (requestId payload : JVal) :
    Except String Resp × List Event :=
  if payload.nullish then
    (Except.error ("TypeError: Cannot destructure payload"), [])
  else
  let service := payload.get ("service")
  let inst := payload.get ("instance")
  let level := payload.get ("level")
  let message := payload.get ("message")
  if ¬ service.truthy ∨ ¬ inst.truthy ∨ level.isUndef ∨ ¬ message.truthy then
    (Except.ok (nackResp requestId ("MissingField")
      ("Missing fields in payload: service, instance, level, message")), [])
  else
    match dbRun w service inst level message with
    | (Except.error e, evs) => (Except.error e, evs)
    | (Except.ok _, evs) =>
      if level.jsGeInt 3 then
        (Except.ok (ackResp requestId), evs ++ messageTelegram g w payload)
      else
        (Except.ok (ackResp requestId), evs)

/-- An inbound HTTP request as the worker sees it: method, URL path, the two
auth headers (`headers.get` yields `none` when absent), and the raw body
text. -/
structure HttpRequest where
  method : String
  path : String
  authHeader : Option String
  ablyAuthHeader : Option String
  bodyText : String

/-- `handleApi(request, env)`: the Direct API handler. Bearer auth, JSON
body parse (`request.json()` via the world's `JSON.parse`), envelope
checks, then the pipeline; a pipeline exception becomes a `DB_ERROR` nack
after reporting through the error-notification path. The first property
read on the parsed body, `body.request_id` (index.js:70), sits OUTSIDE any
try/catch: when the body parses to JSON `null` it throws a TypeError that
propagates uncaught out of the handler (`Except.error`) — the worker
produces no Response at all on that path. Later reads on `body` are safe
because that first read succeeded, and `body.payload.message` is reached
only when `body.payload` is truthy (`||` short-circuit). -/
def handleApi (w : World) (env : Env) (req : HttpRequest) :
    Except String Resp × List Event :=
  match req.authHeader with
  | none =>
    (Except.ok (nackResp (JVal.str ("unknown")) ("UNAUTHORIZED")
      ("Missing or invalid Authorization header")), [])
  | some auth =>
    if auth = "" ∨ ¬ jsStartsWith auth ("Bearer ") then
      (Except.ok (nackResp (JVal.str ("unknown")) ("UNAUTHORIZED")
        ("Missing or invalid Authorization header")), [])
    else
      let token := (jsSplitChar auth ' ').getD 1 ""
      if env.DA_WRITETOKEN ≠ some token then
        (Except.ok (nackResp (JVal.str ("unknown")) ("INVALID_TOKEN")
          ("Token authentication failed")), [])
      else
        match w.jsonParse req.bodyText with
        | Except.error _ =>
          (Except.ok (nackResp (JVal.str ("unknown")) ("INVALID_JSON")
            ("Malformed JSON body")), [])
        | Except.ok body =>
          match body.getEx ("request_id") with
          | Except.error e => (Except.error e, [])
          | Except.ok rid0 =>
            let requestId := if rid0.truthy then rid0 else JVal.str ("unknown")
            if ¬ (body.get ("payload")).truthy ∨
                ¬ ((body.get ("payload")).get ("message")).truthy then
              (Except.ok (nackResp requestId ("INVALID_FIELD")
                ("Missing required field: payload.message")), [])
            else
              match handleApiRequest (some env) w requestId (body.get ("payload")) with
              | (Except.ok r, evs) => (Except.ok r, evs)
              | (Except.error e, evs) =>
                (Except.ok (nackResp requestId ("DB_ERROR") e),
                 evs ++ errDelegate (some env) w ("handleApiRequest failed: " ++ e))

/-- One iteration of the webhook per-message loop. The `msg.data` read
(index.js:115) is plain access: on a nullish batch element it throws PAST
the per-message guard (which only wraps the `handleApiRequest` call) —
that is the `Except.error` result. Otherwise: skip falsy `data`, parse
`data` (reporting a parse failure and continuing), skip a falsy or
non-object `payload` (optional chaining, so no throw there), and run the
pipeline with request id `"unknow"`, catching any exception from it and
reporting it twice. -/
def processOne (g : Option Env) (w : World) (msg : JVal) :
    Except String Unit × List Event :=
  match msg.getEx ("data") with
  | Except.error e => (Except.error e, [])
  | Except.ok d =>
    if ¬ d.truthy then (Except.ok (), [])
    else
      match w.jsonParse d.jsToString with
      | Except.error e =>
        (Except.ok (), errDelegate g w ("❌ Could not parse message.data JSON: " ++ e))
      | Except.ok msgpayload =>
        let payload := msgpayload.get ("payload")
        if ¬ payload.truthy ∨ ¬ payload.typeofObject then (Except.ok (), [])
        else
          match handleApiRequest g w (JVal.str ("unknow")) payload with
          | (Except.ok _, evs) => (Except.ok (), evs)
          | (Except.error e, evs) =>
            (Except.ok (),
             evs ++ errDelegate g w ("💥 handleApiRequest failed: " ++ e)
                 ++ errDelegate g w ("Ably webhook failed: " ++ e))

/-- The webhook `for (const msg of messages)` loop, in array order. A
throw from a message (its `msg.data` read) aborts the loop: the remaining
messages are not processed and the error propagates with the events
accumulated so far. -/
def processMessages (g : Option Env) (w : World) :
    List JVal → Except String Unit × List Event
  | [] => (Except.ok (), [])
  | msg :: rest =>
    match processOne g w msg with
    | (Except.error e, evs) => (Except.error e, evs)
    | (Except.ok _, evs) =>
      ((processMessages g w rest).1, evs ++ (processMessages g w rest).2)

/-- `handleAblyWebhook(request, env)`: shared-secret check, body parse,
batch extraction (`items` preferred over `messages`), the per-message
loop, then plain-text 200 "OK". The error notifications before the
`G_ENV = env` assignment run with the prior global `g0`. The handler's
outer catch IS reachable: `body.items` (index.js:105, before the `G_ENV`
assignment, hence reported with `g0`) throws when the body parses to JSON
`null`, and `msg.data` (index.js:115, after the assignment) throws on a
nullish batch element; either way the catch reports `Webhook error: ...`
and answers plain-text 500, aborting the batch. -/
def handleAblyWebhook (g0 : Option Env) (w : World) (env : Env)
    (req : HttpRequest) : Resp × List Event :=
  match req.ablyAuthHeader with
  | none => (textResp 401 ("Unauthorized"), [])
  | some headerSecret =>
    if headerSecret = "" ∨ env.ABLY_WEBHOOK_SECRET ≠ some headerSecret then
      (textResp 401 ("Unauthorized"), [])
    else
      match w.jsonParse req.bodyText with
      | Except.error e =>
        (textResp 400 ("Invalid JSON"),
         errDelegate g0 w ("❌ JSON parse error:" ++ e))
      | Except.ok body =>
        match body.getEx ("items") with
        | Except.error e =>
          (textResp 500 ("Internal Server Error"),
           errDelegate g0 w ("Webhook error: " ++ e))
        | Except.ok itemsv =>
          let messages := if itemsv.truthy then itemsv else body.get ("messages")
          if ¬ messages.truthy ∨ ¬ messages.isArr then
            (textResp 400 ("Invalid webhook format"),
             errDelegate g0 w ("❌ No messages in webhook payload"))
          else
            match processMessages (some env) w messages.arrElems with
            | (Except.ok _, evs) => (textResp 200 ("OK"), evs)
            | (Except.error e, evs) =>
              (textResp 500 ("Internal Server Error"),
               evs ++ errDelegate (some env) w ("Webhook error: " ++ e))

/-- The worker's `fetch` entry point: method gate, then fixed path
dispatch. The router has no try/catch, so the Direct API handler's
uncaught TypeError propagates out of `fetch` (`Except.error`); the webhook
handler never throws (its outer catch), so its Response is passed through. -/
def fetchMain (g0 : Option Env) (w : World) (env : Env)
    (req : HttpRequest) : Except String Resp × List Event :=
  if req.method ≠ "POST" then
    (Except.ok (textResp 405 ("Method Not Allowed")), [])
  else if req.path = "/api" then handleApi w env req
  else if req.path = "/ably" then
    (Except.ok (handleAblyWebhook g0 w env req).1,
     (handleAblyWebhook g0 w env req).2)
  else (Except.ok (textResp 404 ("Not Found")), [])

/-! ### Helper lemmas about traces -/

/-- `notifyTextTelegram` emits at most the raw Telegram fetch event, and in
particular never throws, inserts, notifies, or reports errors. -/
theorem notifyTextTelegram_shape (g : Option Env) (w : World) (t : String) :
    notifyTextTelegram g w t = [] ∨
      notifyTextTelegram g w t = [Event.telegramFetch t] := by
  cases g with
  | none => exact Or.inl rfl
  | some env =>
    by_cases h1 : envTruthy env.LOG_TELEGRAM_BOT_TOKEN = true
    · by_cases h2 : envTruthy env.LOG_TELEGRAM_CHAT_ID = true
      · right
        cases hw : w.fetchFails <;>
          simp [notifyTextTelegram, h1, h2, fetchTelegram, hw]
      · left; simp [notifyTextTelegram, h2]
    · left; simp [notifyTextTelegram, h1]

theorem countInserts_notifyTextTelegram (g : Option Env) (w : World) (t : String) :
    countInserts (notifyTextTelegram g w t) = 0 := by
  rcases notifyTextTelegram_shape g w t with h | h <;>
    simp [h, countInserts, Event.isInsert]

theorem countNotifies_notifyTextTelegram (g : Option Env) (w : World) (t : String) :
    countNotifies (notifyTextTelegram g w t) = 0 := by
  rcases notifyTextTelegram_shape g w t with h | h <;>
    simp [h, countNotifies, Event.isNotify]

theorem countErrDels_notifyTextTelegram (g : Option Env) (w : World) (t : String) :
    countErrDels (notifyTextTelegram g w t) = 0 := by
  rcases notifyTextTelegram_shape g w t with h | h <;>
    simp [h, countErrDels, Event.isErrDel]

theorem countInserts_append (a b : List Event) :
    countInserts (a ++ b) = countInserts a + countInserts b := by
  simp [countInserts, List.filter_append]

theorem countNotifies_append (a b : List Event) :
    countNotifies (a ++ b) = countNotifies a + countNotifies b := by
  simp [countNotifies, List.filter_append]

theorem countErrDels_append (a b : List Event) :
    countErrDels (a ++ b) = countErrDels a + countErrDels b := by
  simp [countErrDels, List.filter_append]

theorem countErrDels_errDelegate (g : Option Env) (w : World) (m : String) :
    countErrDels (errDelegate g w m) = 1 := by
  have h := countErrDels_notifyTextTelegram g w ("❌ *Error*\n" ++ m)
  simp [errDelegate, countErrDels, Event.isErrDel] at h ⊢
  simpa [countErrDels] using h

theorem countInserts_errDelegate (g : Option Env) (w : World) (m : String) :
    countInserts (errDelegate g w m) = 0 := by
  have h := countInserts_notifyTextTelegram g w ("❌ *Error*\n" ++ m)
  simp [errDelegate, countInserts, Event.isInsert] at h ⊢
  simpa [countInserts] using h

theorem countNotifies_messageTelegram (g : Option Env) (w : World) (p : JVal) :
    countNotifies (messageTelegram g w p) = 1 := by
  have h := countNotifies_notifyTextTelegram g w (telegramFormat p)
  simp [messageTelegram, countNotifies, Event.isNotify] at h ⊢
  simpa [countNotifies] using h

theorem countInserts_messageTelegram (g : Option Env) (w : World) (p : JVal) :
    countInserts (messageTelegram g w p) = 0 := by
  have h := countInserts_notifyTextTelegram g w (telegramFormat p)
  simp [messageTelegram, countInserts, Event.isInsert] at h ⊢
  simpa [countInserts] using h

/-- A truthy value is not nullish. -/
theorem truthy_not_nullish (v : JVal) (h : v.truthy = true) :
    v.nullish = false := by
  cases v <;> simp [JVal.truthy, JVal.nullish] at h ⊢

/-- A truthy property read implies the parent value is a truthy object. -/
theorem get_truthy_imp_truthy (p : JVal) (k : String)
    (h : (p.get k).truthy = true) : p.truthy = true := by
  cases p <;> simp [JVal.get, JVal.truthy] at h ⊢

/-- On a non-nullish base, plain property access does not throw and agrees
with the lookup. -/
theorem getEx_not_nullish (v : JVal) (k : String) (h : v.nullish = false) :
    v.getEx k = Except.ok (v.get k) := by
  cases v with
  | undef => simp [JVal.nullish] at h
  | null => simp [JVal.nullish] at h
  | bool b => rfl
  | num n => rfl
  | str s => rfl
  | arr xs => rfl
  | obj fields => rfl

/-- On a nullish base, plain property access throws. -/
theorem getEx_nullish (v : JVal) (k : String) (h : v.nullish = true) :
    ∃ e, v.getEx k = Except.error e := by
  cases v with
  | undef => exact ⟨_, rfl⟩
  | null => exact ⟨_, rfl⟩
  | bool b => simp [JVal.nullish] at h
  | num n => simp [JVal.nullish] at h
  | str s => simp [JVal.nullish] at h
  | arr xs => simp [JVal.nullish] at h
  | obj fields => simp [JVal.nullish] at h

/-- A property read yielding a string forces the base to be non-nullish
(on a nullish base the lookup is `undefined`). -/
theorem get_str_not_nullish (m : JVal) (k s : String)
    (h : m.get k = JVal.str s) : m.nullish = false := by
  cases m <;> simp [JVal.get, JVal.nullish] at h ⊢

/-- The per-message step never throws on a non-nullish batch element: its
only throw site is the `msg.data` read. -/
theorem processOne_not_nullish_ok (g : Option Env) (w : World) (m : JVal)
    (hm : m.nullish = false) : (processOne g w m).1 = Except.ok () := by
  unfold processOne
  rw [getEx_not_nullish m ("data") hm]
  by_cases hd : (m.get ("data")).truthy = true
  · cases hp : w.jsonParse (m.get ("data")).jsToString with
    | error e => simp [hd, hp]
    | ok mp =>
      by_cases hpt : (mp.get ("payload")).truthy = true
      · by_cases hpo : (mp.get ("payload")).typeofObject = true
        · rcases hh : handleApiRequest g w (JVal.str ("unknow")) (mp.get ("payload"))
            with ⟨res, evs⟩
          cases res <;> simp [hd, hp, hpt, hpo, hh]
        · simp [hd, hp, hpt, hpo]
      · simp [hd, hp, hpt]
  · simp [hd]

/-- A batch of non-nullish messages is processed to completion. -/
theorem processMessages_all_ok (g : Option Env) (w : World) (xs : List JVal)
    (h : ∀ m ∈ xs, m.nullish = false) :
    (processMessages g w xs).1 = Except.ok () := by
  induction xs with
  | nil => rfl
  | cons m rest ih =>
    have h1 := processOne_not_nullish_ok g w m (h m (by simp))
    rcases h2 : processOne g w m with ⟨res, evs⟩
    rw [h2] at h1
    simp only at h1
    subst h1
    simp [processMessages, h2, ih (fun x hx => h x (by simp [hx]))]

/-- Splitting the loop at a prefix that completes: the tail runs exactly as
it would on its own, after the prefix's events. -/
theorem processMessages_append_ok (g : Option Env) (w : World)
    (xs ys : List JVal) (h : (processMessages g w xs).1 = Except.ok ()) :
    processMessages g w (xs ++ ys) =
      ((processMessages g w ys).1,
       (processMessages g w xs).2 ++ (processMessages g w ys).2) := by
  induction xs with
  | nil => simp [processMessages]
  | cons m rest ih =>
    rcases h1 : processOne g w m with ⟨res, evs⟩
    cases res with
    | error e => rw [processMessages, h1] at h; exact absurd h (by simp)
    | ok u =>
      have hrest : (processMessages g w rest).1 = Except.ok () := by
        rw [processMessages, h1] at h
        simpa using h
      simp [processMessages, h1, ih hrest, List.append_assoc]

/-! ### Concrete fixtures for witnesses -/

/-- Environment fixture: all four bindings configured. -/
def envW : Env :=
  { DA_WRITETOKEN := some ("tok"), ABLY_WEBHOOK_SECRET := some ("sec"),
    LOG_TELEGRAM_BOT_TOKEN := some ("bot"), LOG_TELEGRAM_CHAT_ID := some ("chat") }

/-- Valid high-severity payload fixture. -/
def pHigh : JVal :=
  JVal.obj [("service", JVal.str ("svc")), ("instance", JVal.str ("ins")),
    ("level", JVal.num 5), ("message", JVal.str ("msg"))]

/-- Valid payload fixture with `level: 0`. -/
def pZero : JVal :=
  JVal.obj [("service", JVal.str ("svc")), ("instance", JVal.str ("ins")),
    ("level", JVal.num 0), ("message", JVal.str ("msg"))]

/-- Payload fixture with `level: null` and the other fields valid. -/
def pNull : JVal :=
  JVal.obj [("service", JVal.str ("svc")), ("instance", JVal.str ("ins")),
    ("level", JVal.null), ("message", JVal.str ("msg"))]

/-- Payload fixture with `level` absent and the other fields valid. -/
def pNoLevel : JVal :=
  JVal.obj [("service", JVal.str ("svc")), ("instance", JVal.str ("ins")),
    ("message", JVal.str ("msg"))]

/-- World fixture: storage succeeds, the Telegram transport FAILS, and the
JSON parser is never consulted. -/
def wAck : World :=
  { jsonParse := fun _ => Except.error ("unused"), dbError := none,
    fetchFails := true }

/-! ### Claim theorems -/

/-- Claim C9: every non-POST request is answered 405 regardless of path,
headers or body; among POST requests, `/api` goes to the Direct API
handler, `/ably` to the Webhook handler, and any other path is answered
404. The 405 and 404 answers are constants with an empty effect trace, so
no auth check, body parsing or storage call happens for them. -/
theorem router_dispatch (g0 : Option Env) (w : World) (env : Env) (req : HttpRequest) :
    (req.method ≠ "POST" →
      fetchMain g0 w env req =
        (Except.ok (textResp 405 ("Method Not Allowed")), [])) ∧
    (req.method = "POST" →
      (req.path = "/api" → fetchMain g0 w env req = handleApi w env req) ∧
      (req.path = "/ably" → fetchMain g0 w env req =
        (Except.ok (handleAblyWebhook g0 w env req).1,
         (handleAblyWebhook g0 w env req).2)) ∧
      (req.path ≠ "/api" → req.path ≠ "/ably" →
        fetchMain g0 w env req =
          (Except.ok (textResp 404 ("Not Found")), []))) := by
  refine ⟨fun hm => ?_, fun hm => ⟨fun hp => ?_, fun hp => ?_, fun h1 h2 => ?_⟩⟩
  · simp [fetchMain, hm]
  · simp [fetchMain, hm, hp]
  · simp [fetchMain, hm, hp]
  · simp [fetchMain, hm, h1, h2]

/-- Claim C9 witness at concrete inputs: a GET request is answered 405. -/
theorem router_dispatch_witness :
    ("GET" ≠ "POST") ∧
    fetchMain none wAck envW
      { method := "GET", path := "/api", authHeader := none,
        ablyAuthHeader := none, bodyText := "" } =
      (Except.ok (textResp 405 ("Method Not Allowed")), []) :=
  ⟨by decide,
   (router_dispatch none wAck envW
     { method := "GET", path := "/api", authHeader := none,
       ablyAuthHeader := none, bodyText := "" }).1 (by decide)⟩

/-- Claim C6: a webhook request whose `X-Ably-Auth` header is absent or
differs from the configured secret is answered with the plain-text 401
response (not a nack envelope) and an empty effect trace, so no storage
call occurs. -/
theorem webhook_bad_secret_unauthorized (g0 : Option Env) (w : World)
    (env : Env) (req : HttpRequest)
    (h : ∀ s, req.ablyAuthHeader = some s → env.ABLY_WEBHOOK_SECRET ≠ some s) :
    handleAblyWebhook g0 w env req = (textResp 401 ("Unauthorized"), []) := by
  unfold handleAblyWebhook
  cases hh : req.ablyAuthHeader with
  | none => rfl
  | some s => simp [Or.inr (h s hh)]

/-- Claim C6 witness at concrete inputs: header `"wrong"` against secret
`"sec"` yields 401 and an empty trace. -/
theorem webhook_bad_secret_unauthorized_witness :
    (envW.ABLY_WEBHOOK_SECRET ≠ some ("wrong")) ∧
    handleAblyWebhook none wAck envW
      { method := "POST", path := "/ably", authHeader := none,
        ablyAuthHeader := some ("wrong"), bodyText := "" } =
      (textResp 401 ("Unauthorized"), []) :=
  ⟨by decide,
   webhook_bad_secret_unauthorized none wAck envW _
     (fun s hs => by
       simp only [Option.some.injEq] at hs
       subst hs
       decide)⟩

/-- Claim C2: on a valid payload with truthy `service`, `instance`,
`message`, a present `level`, and `level >= 3`, the pipeline performs
exactly one storage append followed (in that order) by exactly one
Notification Sender invocation, and returns the ack. The world `w` is
arbitrary apart from storage success, so the result is the same whether or
not the notification transport fails (`w.fetchFails` is unconstrained). -/
theorem pipeline_high_level_insert_then_notify (g : Option Env) (w : World)
    (rid payload : JVal)
    (hs : (payload.get ("service")).truthy = true)
    (hi : (payload.get ("instance")).truthy = true)
    (hl : (payload.get ("level")).isUndef = false)
    (hm : (payload.get ("message")).truthy = true)
    (hdb : w.dbError = none)
    (hlev : (payload.get ("level")).jsGeInt 3 = true) :
    (handleApiRequest g w rid payload).1 = Except.ok (ackResp rid) ∧
    (handleApiRequest g w rid payload).2 =
      Event.insert (payload.get ("service")) (payload.get ("instance"))
        (payload.get ("level")) (payload.get ("message"))
      :: messageTelegram g w payload ∧
    countInserts (handleApiRequest g w rid payload).2 = 1 ∧
    countNotifies (handleApiRequest g w rid payload).2 = 1 := by
  have hnn : payload.nullish = false :=
    truthy_not_nullish payload (get_truthy_imp_truthy payload ("service") hs)
  have hmain : handleApiRequest g w rid payload =
      (Except.ok (ackResp rid),
       Event.insert (payload.get ("service")) (payload.get ("instance"))
         (payload.get ("level")) (payload.get ("message"))
       :: messageTelegram g w payload) := by
    unfold handleApiRequest
    simp [hnn, hs, hi, hl, hm, dbRun, hdb, hlev]
  refine ⟨by rw [hmain], by rw [hmain], ?_, ?_⟩
  · rw [hmain]
    have h0 := countInserts_messageTelegram g w payload
    simp [countInserts, Event.isInsert] at h0 ⊢
    simpa [countInserts] using h0
  · rw [hmain]
    have h1 := countNotifies_messageTelegram g w payload
    simp [countNotifies, Event.isNotify] at h1 ⊢
    simpa [countNotifies] using h1

/-- Claim C2 witness at concrete inputs: `pHigh` (level 5) under `wAck`,
whose Telegram transport fails, still acks, with one insert then one
notification. -/
theorem pipeline_high_level_witness :
    ((pHigh.get ("service")).truthy = true ∧
     (pHigh.get ("level")).isUndef = false ∧
     wAck.dbError = none ∧ wAck.fetchFails = true ∧
     (pHigh.get ("level")).jsGeInt 3 = true) ∧
    (handleApiRequest (some envW) wAck (JVal.str ("r1")) pHigh).1 =
      Except.ok (ackResp (JVal.str ("r1"))) ∧
    (handleApiRequest (some envW) wAck (JVal.str ("r1")) pHigh).2 =
      Event.insert (pHigh.get ("service")) (pHigh.get ("instance"))
        (pHigh.get ("level")) (pHigh.get ("message"))
      :: messageTelegram (some envW) wAck pHigh ∧
    countInserts (handleApiRequest (some envW) wAck (JVal.str ("r1")) pHigh).2 = 1 ∧
    countNotifies (handleApiRequest (some envW) wAck (JVal.str ("r1")) pHigh).2 = 1 :=
  ⟨⟨rfl, rfl, rfl, rfl, rfl⟩,
   pipeline_high_level_insert_then_notify (some envW) wAck (JVal.str ("r1"))
     pHigh rfl rfl rfl rfl rfl rfl⟩

/-- Claim C7: a payload with `level: 0` and truthy `service`, `instance`,
`message` is accepted by the pipeline: exactly one insert (recording level
`0`), no Notification Sender invocation, and the ack is returned. -/
theorem pipeline_level_zero_accepted (g : Option Env) (w : World)
    (rid payload : JVal)
    (hs : (payload.get ("service")).truthy = true)
    (hi : (payload.get ("instance")).truthy = true)
    (hl : payload.get ("level") = JVal.num 0)
    (hm : (payload.get ("message")).truthy = true)
    (hdb : w.dbError = none) :
    handleApiRequest g w rid payload =
      (Except.ok (ackResp rid),
       [Event.insert (payload.get ("service")) (payload.get ("instance"))
          (JVal.num 0) (payload.get ("message"))]) ∧
    countInserts (handleApiRequest g w rid payload).2 = 1 ∧
    countNotifies (handleApiRequest g w rid payload).2 = 0 := by
  have hnn : payload.nullish = false :=
    truthy_not_nullish payload (get_truthy_imp_truthy payload ("service") hs)
  have hmain : handleApiRequest g w rid payload =
      (Except.ok (ackResp rid),
       [Event.insert (payload.get ("service")) (payload.get ("instance"))
          (JVal.num 0) (payload.get ("message"))]) := by
    unfold handleApiRequest
    simp [hnn, hs, hi, hl, hm, dbRun, hdb, JVal.isUndef, JVal.jsGeInt,
      JVal.toNumber]
  refine ⟨hmain, ?_, ?_⟩ <;>
    simp [hmain, countInserts, countNotifies, Event.isInsert, Event.isNotify]

/-- Claim C7 witness at concrete inputs: `pZero` under `wAck` acks with one
insert and no notification. -/
theorem pipeline_level_zero_witness :
    ((pZero.get ("service")).truthy = true ∧
     pZero.get ("level") = JVal.num 0 ∧ wAck.dbError = none) ∧
    handleApiRequest (some envW) wAck (JVal.str ("r2")) pZero =
      (Except.ok (ackResp (JVal.str ("r2"))),
       [Event.insert (pZero.get ("service")) (pZero.get ("instance"))
          (JVal.num 0) (pZero.get ("message"))]) ∧
    countInserts (handleApiRequest (some envW) wAck (JVal.str ("r2")) pZero).2 = 1 ∧
    countNotifies (handleApiRequest (some envW) wAck (JVal.str ("r2")) pZero).2 = 0 :=
  ⟨⟨rfl, rfl, rfl⟩,
   pipeline_level_zero_accepted (some envW) wAck (JVal.str ("r2")) pZero
     rfl rfl rfl rfl rfl⟩

/-- A non-`undefined` falsy JS value numerically coerces to `0`, so the
`level >= 3` comparison is false for it. -/
theorem falsy_not_ge3 (v : JVal) (h1 : v.isUndef = false) (h2 : v.truthy = false) :
    v.jsGeInt 3 = false := by
  cases v with
  | undef => simp [JVal.isUndef] at h1
  | null => rfl
  | bool b =>
    simp [JVal.truthy] at h2
    simp [h2, JVal.jsGeInt, JVal.toNumber]
  | num n =>
    simp [JVal.truthy] at h2
    simp [h2, JVal.jsGeInt, JVal.toNumber]
  | str s =>
    simp [JVal.truthy, String.isEmpty_iff] at h2
    simp [h2, JVal.jsGeInt, JVal.toNumber, strToNumber]
  | arr xs => simp [JVal.truthy] at h2
  | obj fields => simp [JVal.truthy] at h2

/-- Claim C10: the pipeline's `level` presence check rejects only the exact
value `undefined`: any other falsy `level` (e.g. `null`) with truthy
`service`, `instance`, `message` is accepted, persisted with that very
`level` value, triggers no notification (its `>= 3` comparison is false),
and yields an ack. -/
theorem pipeline_level_presence_strict (g : Option Env) (w : World)
    (rid payload : JVal)
    (hs : (payload.get ("service")).truthy = true)
    (hi : (payload.get ("instance")).truthy = true)
    (hl1 : (payload.get ("level")).isUndef = false)
    (hl2 : (payload.get ("level")).truthy = false)
    (hm : (payload.get ("message")).truthy = true)
    (hdb : w.dbError = none) :
    handleApiRequest g w rid payload =
      (Except.ok (ackResp rid),
       [Event.insert (payload.get ("service")) (payload.get ("instance"))
          (payload.get ("level")) (payload.get ("message"))]) ∧
    countNotifies (handleApiRequest g w rid payload).2 = 0 := by
  have hge := falsy_not_ge3 (payload.get ("level")) hl1 hl2
  have hnn : payload.nullish = false :=
    truthy_not_nullish payload (get_truthy_imp_truthy payload ("service") hs)
  have hmain : handleApiRequest g w rid payload =
      (Except.ok (ackResp rid),
       [Event.insert (payload.get ("service")) (payload.get ("instance"))
          (payload.get ("level")) (payload.get ("message"))]) := by
    unfold handleApiRequest
    simp [hnn, hs, hi, hl1, hm, dbRun, hdb, hge]
  exact ⟨hmain, by simp [hmain, countNotifies, Event.isNotify]⟩

/-- Claim C10 witness at concrete inputs: `pNull` (level `null`) under
`wAck` acks, persists level `null`, and never notifies. -/
theorem pipeline_level_presence_witness :
    ((pNull.get ("level")).isUndef = false ∧
     (pNull.get ("level")).truthy = false ∧
     (pNull.get ("service")).truthy = true ∧ wAck.dbError = none) ∧
    handleApiRequest (some envW) wAck (JVal.str ("r3")) pNull =
      (Except.ok (ackResp (JVal.str ("r3"))),
       [Event.insert (pNull.get ("service")) (pNull.get ("instance"))
          (pNull.get ("level")) (pNull.get ("message"))]) ∧
    countNotifies (handleApiRequest (some envW) wAck (JVal.str ("r3")) pNull).2 = 0 :=
  ⟨⟨rfl, rfl, rfl, rfl⟩,
   pipeline_level_presence_strict (some envW) wAck (JVal.str ("r3")) pNull
     rfl rfl rfl rfl rfl rfl⟩

/-- The nack constructor always carries its code. -/
theorem nackCode_nackResp (rid : JVal) (c m : String) :
    (nackResp rid c m).nackCode = some c := rfl

/-- The nack constructor always has HTTP status 400. -/
theorem status_nackResp (rid : JVal) (c m : String) :
    (nackResp rid c m).status = 400 := rfl

/-- A string that starts with the `"Bearer "` prefix is not empty. -/
theorem bearer_not_empty (a : String) (hb : jsStartsWith a ("Bearer ") = true) :
    ¬ a = "" := by
  intro he
  subst he
  exact absurd hb (by decide)

/-- The pipeline on a NON-nullish payload with any missing field: it
RETURNS (does not throw) the `MissingField` nack and performs no side
effect at all. -/
theorem handleApiRequest_missing (g : Option Env) (w : World) (rid payload : JVal)
    (hnn : payload.nullish = false)
    (hmiss : ¬ (payload.get ("service")).truthy = true ∨
             ¬ (payload.get ("instance")).truthy = true ∨
             (payload.get ("level")).isUndef = true ∨
             ¬ (payload.get ("message")).truthy = true) :
    handleApiRequest g w rid payload =
      (Except.ok (nackResp rid ("MissingField")
        ("Missing fields in payload: service, instance, level, message")), []) := by
  rcases hmiss with h | h | h | h <;> simp [handleApiRequest, hnn, h]

/-- When the body parses to JSON `null`, the Direct API handler throws at
the `body.request_id` read (index.js:70, outside any try/catch): the
worker produces no Response and in particular no nack, and no side effect
occurs. -/
theorem handleApi_null_body_throws (w : World) (env : Env) (req : HttpRequest)
    (a : String)
    (ha : req.authHeader = some a)
    (hb : jsStartsWith a ("Bearer ") = true)
    (ht : env.DA_WRITETOKEN = some ((jsSplitChar a ' ').getD 1 ""))
    (hp : w.jsonParse req.bodyText = Except.ok JVal.null) :
    handleApi w env req =
      (Except.error
        ("TypeError: Cannot read properties of null (reading request_id)"),
       []) := by
  have hne := bearer_not_empty a hb
  simp [handleApi, ha, hne, hb, ht, hp, JVal.getEx]

/-- Claim C1: a Direct API request that authenticates, whose body parses
to a (non-null) value carrying a payload that is missing one of the
required fields (a falsy `service`, `instance` or `message`, or an
`undefined` `level`) is answered with a nack whose code is `MissingField`
— or `INVALID_FIELD` exactly when `payload.message` itself is the missing
one — with an empty effect trace, so no storage insert call occurs. (A
body parsing to JSON `null` has no payload and falls outside the claim:
there the handler throws at the `body.request_id` read before any payload
check, see `handleApi_null_body_throws`.) -/
theorem api_missing_field_nack (w : World) (env : Env) (req : HttpRequest)
    (a : String) (body : JVal)
    (ha : req.authHeader = some a)
    (hb : jsStartsWith a ("Bearer ") = true)
    (ht : env.DA_WRITETOKEN = some ((jsSplitChar a ' ').getD 1 ""))
    (hp : w.jsonParse req.bodyText = Except.ok body)
    (hnn : body.nullish = false)
    (hmiss : ¬ ((body.get ("payload")).get ("service")).truthy = true ∨
             ¬ ((body.get ("payload")).get ("instance")).truthy = true ∨
             ((body.get ("payload")).get ("level")).isUndef = true ∨
             ¬ ((body.get ("payload")).get ("message")).truthy = true) :
    (∃ rid m0, handleApi w env req =
      (Except.ok (nackResp rid
        (if ((body.get ("payload")).get ("message")).truthy
         then "MissingField" else "INVALID_FIELD") m0), [])) ∧
    countInserts (handleApi w env req).2 = 0 := by
  have hne := bearer_not_empty a hb
  have hge : body.getEx ("request_id") = Except.ok (body.get ("request_id")) :=
    getEx_not_nullish body ("request_id") hnn
  by_cases hmsg : ((body.get ("payload")).get ("message")).truthy = true
  · -- message is present: the pipeline rejects with MissingField
    have hpl : (body.get ("payload")).truthy = true :=
      get_truthy_imp_truthy _ _ hmsg
    have hpipe := handleApiRequest_missing (some env) w
      (if (body.get ("request_id")).truthy then body.get ("request_id")
       else JVal.str ("unknown")) (body.get ("payload"))
      (truthy_not_nullish _ hpl) hmiss
    have hmain : handleApi w env req =
        (Except.ok (nackResp
          (if (body.get ("request_id")).truthy then body.get ("request_id")
           else JVal.str ("unknown"))
          ("MissingField")
          ("Missing fields in payload: service, instance, level, message")), []) := by
      simp [handleApi, ha, hne, hb, ht, hp, hge, hpl, hmsg, hpipe]
    exact ⟨⟨(if (body.get ("request_id")).truthy then body.get ("request_id")
            else JVal.str ("unknown")),
           "Missing fields in payload: service, instance, level, message",
           by rw [hmain]; simp [hmsg]⟩,
          by simp [hmain, countInserts]⟩
  · -- message is missing: the envelope check rejects with INVALID_FIELD
    have hmain : handleApi w env req =
        (Except.ok (nackResp
          (if (body.get ("request_id")).truthy then body.get ("request_id")
           else JVal.str ("unknown"))
          ("INVALID_FIELD") ("Missing required field: payload.message")), []) := by
      simp [handleApi, ha, hne, hb, ht, hp, hge, hmsg]
    exact ⟨⟨(if (body.get ("request_id")).truthy then body.get ("request_id")
            else JVal.str ("unknown")),
           "Missing required field: payload.message",
           by rw [hmain]; simp [hmsg]⟩,
          by simp [hmain, countInserts]⟩

/-- The parsed body used by the C1 witness: its payload lacks `level`. -/
def bodyC1 : JVal := JVal.obj [("payload", pNoLevel)]

/-- World fixture for the C1 witness. -/
def wC1 : World :=
  { jsonParse := fun _ => Except.ok bodyC1, dbError := none,
    fetchFails := false }

/-- Request fixture for the C1 witness. -/
def reqC1 : HttpRequest :=
  { method := "POST", path := "/api", authHeader := some ("Bearer tok"),
    ablyAuthHeader := none, bodyText := "ignored" }

/-- Claim C1 witness at concrete inputs: an authenticated request whose
payload lacks `level` nacks (the code resolves to `MissingField`) and
performs no insert. -/
theorem api_missing_field_nack_witness :
    (jsStartsWith ("Bearer tok") ("Bearer ") = true ∧
     envW.DA_WRITETOKEN = some ((jsSplitChar ("Bearer tok") ' ').getD 1 "") ∧
     bodyC1.nullish = false ∧
     (bodyC1.get ("payload")).get ("level") = JVal.undef) ∧
    (∃ rid m0, handleApi wC1 envW reqC1 =
      (Except.ok (nackResp rid
        (if ((bodyC1.get ("payload")).get ("message")).truthy
         then "MissingField" else "INVALID_FIELD") m0), [])) ∧
    countInserts (handleApi wC1 envW reqC1).2 = 0 :=
  ⟨⟨rfl, rfl, rfl, rfl⟩,
   api_missing_field_nack wC1 envW reqC1 ("Bearer tok") bodyC1
     rfl rfl rfl rfl rfl (Or.inr (Or.inr (Or.inl rfl)))⟩

/-- Every pipeline outcome is the ack, the `MissingField` nack, or a thrown
storage error. -/
theorem handleApiRequest_shape (g : Option Env) (w : World) (rid payload : JVal) :
    (handleApiRequest g w rid payload).1 = Except.ok (ackResp rid) ∨
    (handleApiRequest g w rid payload).1 =
      Except.ok (nackResp rid ("MissingField")
        ("Missing fields in payload: service, instance, level, message")) ∨
    ∃ e, (handleApiRequest g w rid payload).1 = Except.error e := by
  by_cases hnl : payload.nullish = true
  · right; right
    exact ⟨"TypeError: Cannot destructure payload",
      by simp [handleApiRequest, hnl]⟩
  · have hnn : payload.nullish = false := by simpa using hnl
    by_cases hv : ¬ (payload.get ("service")).truthy = true ∨
        ¬ (payload.get ("instance")).truthy = true ∨
        (payload.get ("level")).isUndef = true ∨
        ¬ (payload.get ("message")).truthy = true
    · right; left
      rw [handleApiRequest_missing g w rid payload hnn hv]
    · obtain ⟨h1, h2, h3, h4⟩ :
          (payload.get ("service")).truthy = true ∧
          (payload.get ("instance")).truthy = true ∧
          (payload.get ("level")).isUndef = false ∧
          (payload.get ("message")).truthy = true := by
        simpa [not_or] using hv
      cases hdb : w.dbError with
      | some e =>
        right; right
        exact ⟨e, by simp [handleApiRequest, hnn, dbRun, hdb, h1, h2, h3, h4]⟩
      | none =>
        left
        by_cases hge : (payload.get ("level")).jsGeInt 3 = true <;>
          simp [handleApiRequest, hnn, dbRun, hdb, hge, h1, h2, h3, h4]

/-- Every Direct API outcome is an ack envelope, a nack envelope, or the
uncaught TypeError thrown at the `body.request_id` read (no plain-text
response exists on this path). -/
theorem handleApi_resp_shape (w : World) (env : Env) (req : HttpRequest) :
    (∃ rid, (handleApi w env req).1 = Except.ok (ackResp rid)) ∨
    (∃ rid c m, (handleApi w env req).1 = Except.ok (nackResp rid c m)) ∨
    (∃ e, (handleApi w env req).1 = Except.error e) := by
  cases ha : req.authHeader with
  | none =>
    exact Or.inr (Or.inl ⟨JVal.str ("unknown"), "UNAUTHORIZED",
      "Missing or invalid Authorization header", by simp [handleApi, ha]⟩)
  | some a =>
    by_cases he : a = ""
    · exact Or.inr (Or.inl ⟨JVal.str ("unknown"), "UNAUTHORIZED",
        "Missing or invalid Authorization header", by simp [handleApi, ha, he]⟩)
    · by_cases hbw : jsStartsWith a ("Bearer ") = true
      · by_cases htk : env.DA_WRITETOKEN = some ((jsSplitChar a ' ').getD 1 "")
        · cases hp : w.jsonParse req.bodyText with
          | error e =>
            exact Or.inr (Or.inl ⟨JVal.str ("unknown"), "INVALID_JSON",
              "Malformed JSON body", by simp [handleApi, ha, he, hbw, htk, hp]⟩)
          | ok body =>
            by_cases hbn : body.nullish = true
            · obtain ⟨e0, hge⟩ := getEx_nullish body ("request_id") hbn
              exact Or.inr (Or.inr ⟨e0,
                by simp [handleApi, ha, he, hbw, htk, hp, hge]⟩)
            · have hnn : body.nullish = false := by simpa using hbn
              have hge := getEx_not_nullish body ("request_id") hnn
              by_cases h3 : (body.get ("payload")).truthy = true ∧
                  ((body.get ("payload")).get ("message")).truthy = true
              · rcases hsh : handleApiRequest (some env) w
                    (if (body.get ("request_id")).truthy = true
                     then body.get ("request_id") else JVal.str ("unknown"))
                    (body.get ("payload")) with ⟨res, evs⟩
                have hs := handleApiRequest_shape (some env) w
                    (if (body.get ("request_id")).truthy = true
                     then body.get ("request_id") else JVal.str ("unknown"))
                    (body.get ("payload"))
                rw [hsh] at hs
                cases res with
                | ok r =>
                  rcases hs with h | h | ⟨e, h⟩
                  · left
                    refine ⟨(if (body.get ("request_id")).truthy = true
                      then body.get ("request_id") else JVal.str ("unknown")), ?_⟩
                    simp only [Except.ok.injEq] at h
                    simp [handleApi, ha, he, hbw, htk, hp, hge, h3.1, h3.2, hsh, h]
                  · right; left
                    refine ⟨(if (body.get ("request_id")).truthy = true
                      then body.get ("request_id") else JVal.str ("unknown")),
                      "MissingField",
                      "Missing fields in payload: service, instance, level, message", ?_⟩
                    simp only [Except.ok.injEq] at h
                    simp [handleApi, ha, he, hbw, htk, hp, hge, h3.1, h3.2, hsh, h]
                  · exact absurd h (by simp)
                | error e =>
                  right; left
                  refine ⟨(if (body.get ("request_id")).truthy = true
                    then body.get ("request_id") else JVal.str ("unknown")),
                    "DB_ERROR", e, ?_⟩
                  simp [handleApi, ha, he, hbw, htk, hp, hge, h3.1, h3.2, hsh]
              · right; left
                have h4 : ¬ (body.get ("payload")).truthy = true ∨
                    ¬ ((body.get ("payload")).get ("message")).truthy = true := by
                  tauto
                refine ⟨(if (body.get ("request_id")).truthy = true
                  then body.get ("request_id") else JVal.str ("unknown")),
                  "INVALID_FIELD", "Missing required field: payload.message", ?_⟩
                rcases h4 with h | h <;>
                  simp [handleApi, ha, he, hbw, htk, hp, hge, h]
        · have htk2 : ¬ env.DA_WRITETOKEN =
              some ((jsSplitChar a ' ')[1]?.getD "") := by simpa using htk
          exact Or.inr (Or.inl ⟨JVal.str ("unknown"), "INVALID_TOKEN",
            "Token authentication failed", by simp [handleApi, ha, he, hbw, htk2]⟩)
      · have hf : jsStartsWith a ("Bearer ") = false := by simpa using hbw
        exact Or.inr (Or.inl ⟨JVal.str ("unknown"), "UNAUTHORIZED",
          "Missing or invalid Authorization header", by simp [handleApi, ha, he, hf]⟩)

/-- Claim C5: on the Direct API, a missing Authorization header or one not
of the `"Bearer <x>"` shape nacks with code `UNAUTHORIZED` and request id
`"unknown"` with an empty trace, the result being a constant independent of
the body (which is therefore never parsed); a well-shaped Bearer token
different from the configured write-token nacks with `INVALID_TOKEN`; and
every nack response this handler can produce has HTTP status 400. -/
theorem api_auth_and_nack_status (w : World) (env : Env) (req : HttpRequest) :
    ((req.authHeader = none ∨
        ∃ a, req.authHeader = some a ∧ jsStartsWith a ("Bearer ") = false) →
      handleApi w env req =
        (Except.ok (nackResp (JVal.str ("unknown")) ("UNAUTHORIZED")
          ("Missing or invalid Authorization header")), [])) ∧
    (∀ a, req.authHeader = some a → jsStartsWith a ("Bearer ") = true →
      env.DA_WRITETOKEN ≠ some ((jsSplitChar a ' ').getD 1 "") →
      handleApi w env req =
        (Except.ok (nackResp (JVal.str ("unknown")) ("INVALID_TOKEN")
          ("Token authentication failed")), [])) ∧
    (∀ r, (handleApi w env req).1 = Except.ok r → r.isNack = true →
      r.status = 400) := by
  refine ⟨?_, ?_, ?_⟩
  · rintro (hn | ⟨a, ha, hf⟩)
    · simp [handleApi, hn]
    · by_cases he : a = ""
      · simp [handleApi, ha, he]
      · simp [handleApi, ha, he, hf]
  · intro a ha hbw htk
    by_cases he : a = ""
    · subst he; exact absurd hbw (by decide)
    · have htk2 : ¬ env.DA_WRITETOKEN =
          some ((jsSplitChar a ' ')[1]?.getD "") := by simpa using htk
      simp [handleApi, ha, he, hbw, htk2]
  · intro r hr hnk
    rcases handleApi_resp_shape w env req with ⟨rid, h⟩ | ⟨rid, c, m, h⟩ | ⟨e, h⟩
    · rw [hr] at h
      simp only [Except.ok.injEq] at h
      rw [h] at hnk
      exact absurd hnk (by simp [ackResp, jsonResponse, Resp.isNack])
    · rw [hr] at h
      simp only [Except.ok.injEq] at h
      rw [h]
      rfl
    · rw [hr] at h
      exact absurd h (by simp)

/-- Claim C5 witness at concrete inputs: no Authorization header nacks
`UNAUTHORIZED` with request id `"unknown"`; a wrong Bearer token nacks
`INVALID_TOKEN`; both with empty traces. -/
theorem api_auth_and_nack_status_witness :
    (envW.DA_WRITETOKEN ≠
      some ((jsSplitChar ("Bearer zzz") ' ').getD 1 "")) ∧
    handleApi wAck envW
      { method := "POST", path := "/api", authHeader := none,
        ablyAuthHeader := none, bodyText := "b" } =
      (Except.ok (nackResp (JVal.str ("unknown")) ("UNAUTHORIZED")
        ("Missing or invalid Authorization header")), []) ∧
    handleApi wAck envW
      { method := "POST", path := "/api", authHeader := some ("Bearer zzz"),
        ablyAuthHeader := none, bodyText := "b" } =
      (Except.ok (nackResp (JVal.str ("unknown")) ("INVALID_TOKEN")
        ("Token authentication failed")), []) :=
  ⟨by decide,
   (api_auth_and_nack_status wAck envW
     { method := "POST", path := "/api", authHeader := none,
       ablyAuthHeader := none, bodyText := "b" }).1 (Or.inl rfl),
   (api_auth_and_nack_status wAck envW
     { method := "POST", path := "/api", authHeader := some ("Bearer zzz"),
       ablyAuthHeader := none, bodyText := "b" }).2.1
     ("Bearer zzz") rfl rfl (by decide)⟩

/-- A batch extracted from `items`/`messages` forces the body to be
non-nullish (on a nullish base both lookups are `undefined`, never an
array). -/
theorem msgsrc_not_nullish (body : JVal) (msgs : List JVal)
    (h : (if (body.get ("items")).truthy = true then body.get ("items")
          else body.get ("messages")) = JVal.arr msgs) :
    body.nullish = false := by
  cases body <;> simp [JVal.get, JVal.truthy, JVal.nullish] at h ⊢

/-- The webhook handler under correct auth, parseable body and a proper
message array runs the per-message loop: 200 "OK" with the loop's events
when the loop completes, and — when a message's `msg.data` read throws —
the outer catch's `Webhook error` report and plain-text 500. -/
theorem handleAblyWebhook_ok (g0 : Option Env) (w : World) (env : Env)
    (req : HttpRequest) (hsec : String) (body : JVal) (msgs : List JVal)
    (h : req.ablyAuthHeader = some hsec) (hne : ¬ hsec = "")
    (hsecret : env.ABLY_WEBHOOK_SECRET = some hsec)
    (hparse : w.jsonParse req.bodyText = Except.ok body)
    (hmsgs : (if (body.get ("items")).truthy = true then body.get ("items")
              else body.get ("messages")) = JVal.arr msgs) :
    handleAblyWebhook g0 w env req =
      (match processMessages (some env) w msgs with
       | (Except.ok _, evs) => (textResp 200 ("OK"), evs)
       | (Except.error e, evs) =>
         (textResp 500 ("Internal Server Error"),
          evs ++ errDelegate (some env) w ("Webhook error: " ++ e))) := by
  have hget : body.getEx ("items") = Except.ok (body.get ("items")) :=
    getEx_not_nullish body ("items") (msgsrc_not_nullish body msgs hmsgs)
  simp only [handleAblyWebhook, h, hparse, hget, hmsgs]
  simp [hne, hsecret, JVal.truthy, JVal.isArr, JVal.arrElems]

/-- Webhook message fixture whose parsed payload is the `level: 0` one. -/
def msg1 : JVal := JVal.obj [("data", JVal.str ("d1"))]

/-- Webhook message whose `data` is a non-empty string that does not
parse. -/
def msgBad : JVal := JVal.obj [("data", JVal.str ("xx"))]

/-- Webhook message carrying the high-severity payload. -/
def msg3 : JVal := JVal.obj [("data", JVal.str ("d3"))]

/-- Webhook message whose `data` is the EMPTY string: it fails
`JSON.parse`, but the falsy-data check skips it before any parse. -/
def msgEmpty : JVal := JVal.obj [("data", JVal.str (""))]

/-- JSON parser fixture for the C4 batches: body "BODYA" is a batch ending
in the empty-data message, body "BODYB" a batch starting with a `null`
element, body "BODY" the 3-message amended-claim batch; `""` and `"xx"`
fail to parse. -/
def parseC4 : String → Except String JVal := fun s =>
  if s = "BODY" then
    Except.ok (JVal.obj [("items", JVal.arr [msg1, msgBad, msg3])])
  else if s = "BODYA" then
    Except.ok (JVal.obj [("items", JVal.arr [msg1, msgEmpty])])
  else if s = "BODYB" then
    Except.ok (JVal.obj [("items", JVal.arr [JVal.null, msgBad])])
  else if s = "d1" then Except.ok (JVal.obj [("payload", pZero)])
  else if s = "d3" then Except.ok (JVal.obj [("payload", pHigh)])
  else if s = "" then Except.error ("Unexpected end of JSON input")
  else Except.error ("bad json")

/-- World fixture for the C4 theorems. -/
def wC4 : World := { jsonParse := parseC4, dbError := none, fetchFails := false }

/-- Webhook request fixture for the C4 witness (3-message batch). -/
def reqC4 : HttpRequest :=
  { method := "POST", path := "/ably", authHeader := none,
    ablyAuthHeader := some ("sec"), bodyText := "BODY" }

/-- Webhook request fixture whose batch ends with the empty-data message. -/
def reqC4A : HttpRequest :=
  { method := "POST", path := "/ably", authHeader := none,
    ablyAuthHeader := some ("sec"), bodyText := "BODYA" }

/-- Webhook request fixture whose batch starts with a `null` element. -/
def reqC4B : HttpRequest :=
  { method := "POST", path := "/ably", authHeader := none,
    ablyAuthHeader := some ("sec"), bodyText := "BODYB" }

/-- Claim C4 counterexample, two concrete batches. Batch A contains a
message whose `data` is `""` — a string that fails `JSON.parse` — yet the
run reports NOTHING to the error-notification path (the falsy-data check
at index.js:115 skips the message before any parse), contradicting the
claim's "reports that parse error". Batch B contains a `null` element
followed by a bad-data message: the `msg.data` read throws into the outer
catch and the handler answers plain-text 500, not the claimed 200 "OK",
and the bad message is never reached (no parse-error report, only the
outer `Webhook error` report). -/
theorem webhook_bad_data_cex :
    (wC4.jsonParse ("") = Except.error ("Unexpected end of JSON input") ∧
     msgEmpty.get ("data") = JVal.str ("") ∧
     wC4.jsonParse ("xx") = Except.error ("bad json")) ∧
    ((handleAblyWebhook none wC4 envW reqC4A).1 = textResp 200 ("OK") ∧
     countErrDels (handleAblyWebhook none wC4 envW reqC4A).2 = 0) ∧
    ((handleAblyWebhook none wC4 envW reqC4B).1 =
       textResp 500 ("Internal Server Error") ∧
     countErrDels (handleAblyWebhook none wC4 envW reqC4B).2 = 1) :=
  ⟨⟨rfl, rfl, rfl⟩, ⟨rfl, rfl⟩, ⟨rfl, rfl⟩⟩

/-- Claim C4 as amended: an authenticated webhook batch of non-null
messages in which one message's `data` is a NON-EMPTY string that fails to
parse still answers 200 "OK"; the parse failure is reported to the
error-notification path exactly once, and the rest of the batch is
processed in order exactly as it would be on its own (in particular the
valid messages around the bad one are persisted). An empty-string `data`
is instead skipped silently by the falsy-data check before any parse, and
a `null` batch element throws at the `msg.data` read into the outer catch,
which answers 500 — see `webhook_bad_data_cex`. -/
theorem webhook_bad_data_continues (g0 : Option Env) (w : World) (env : Env)
    (req : HttpRequest) (hsec : String) (body bad : JVal)
    (pre post : List JVal) (s e : String)
    (h : req.ablyAuthHeader = some hsec) (hne : ¬ hsec = "")
    (hsecret : env.ABLY_WEBHOOK_SECRET = some hsec)
    (hparse : w.jsonParse req.bodyText = Except.ok body)
    (hmsgs : (if (body.get ("items")).truthy = true then body.get ("items")
              else body.get ("messages")) = JVal.arr (pre ++ bad :: post))
    (hpre : ∀ m ∈ pre, m.nullish = false)
    (hpost : ∀ m ∈ post, m.nullish = false)
    (hd : bad.get ("data") = JVal.str s) (hs : ¬ s = "")
    (hbad : w.jsonParse s = Except.error e) :
    handleAblyWebhook g0 w env req =
      (textResp 200 ("OK"),
       (processMessages (some env) w pre).2
         ++ errDelegate (some env) w ("❌ Could not parse message.data JSON: " ++ e)
         ++ (processMessages (some env) w post).2) ∧
    countErrDels
      (errDelegate (some env) w ("❌ Could not parse message.data JSON: " ++ e)) =
      1 := by
  refine ⟨?_, countErrDels_errDelegate _ _ _⟩
  rw [handleAblyWebhook_ok g0 w env req hsec body (pre ++ bad :: post)
    h hne hsecret hparse hmsgs]
  have hbadnn : bad.nullish = false := get_str_not_nullish bad ("data") s hd
  have hdt : (JVal.str s).truthy = true := by
    have h0 : s.isEmpty = false :=
      Bool.eq_false_iff.mpr (fun hh => hs ((String.isEmpty_iff s).mp hh))
    simp [JVal.truthy, h0]
  have hone : processOne (some env) w bad =
      (Except.ok (),
       errDelegate (some env) w ("❌ Could not parse message.data JSON: " ++ e)) := by
    simp [processOne, getEx_not_nullish bad ("data") hbadnn, hd, hdt,
      JVal.jsToString, hbad]
  have hpre1 : (processMessages (some env) w pre).1 = Except.ok () :=
    processMessages_all_ok (some env) w pre hpre
  have hpost1 : (processMessages (some env) w post).1 = Except.ok () :=
    processMessages_all_ok (some env) w post hpost
  rw [processMessages_append_ok (some env) w pre (bad :: post) hpre1]
  simp [processMessages, hone, hpost1, List.append_assoc]

/-- Claim C4 amended-theorem witness at concrete inputs: a 3-message batch
whose middle message has non-empty unparseable `data` answers 200 "OK",
reports the parse error once, processes messages 1 and 3 around it, and
both valid messages are persisted (two inserts in the final trace). -/
theorem webhook_bad_data_continues_witness :
    (envW.ABLY_WEBHOOK_SECRET = some ("sec") ∧
     wC4.jsonParse ("BODY") =
       Except.ok (JVal.obj [("items", JVal.arr [msg1, msgBad, msg3])]) ∧
     wC4.jsonParse ("xx") = Except.error ("bad json") ∧
     msg1.nullish = false ∧ msg3.nullish = false) ∧
    (handleAblyWebhook none wC4 envW reqC4 =
      (textResp 200 ("OK"),
       (processMessages (some envW) wC4 [msg1]).2
         ++ errDelegate (some envW) wC4
             ("❌ Could not parse message.data JSON: " ++ "bad json")
         ++ (processMessages (some envW) wC4 [msg3]).2) ∧
     countErrDels
       (errDelegate (some envW) wC4
         ("❌ Could not parse message.data JSON: " ++ "bad json")) = 1) ∧
    countInserts (handleAblyWebhook none wC4 envW reqC4).2 = 2 :=
  ⟨⟨rfl, rfl, rfl, rfl, rfl⟩,
   webhook_bad_data_continues none wC4 envW reqC4 ("sec")
     (JVal.obj [("items", JVal.arr [msg1, msgBad, msg3])]) msgBad
     [msg1] [msg3] ("xx") ("bad json")
     rfl (by decide) rfl rfl rfl
     (fun m hm => by rw [List.mem_singleton] at hm; subst hm; rfl)
     (fun m hm => by rw [List.mem_singleton] at hm; subst hm; rfl)
     rfl (by decide) rfl,
   by rfl⟩

/-- Claim C8: the webhook per-message loop invokes the Ingestion Pipeline
with the fixed request id `"unknow"` (not `"unknown"`); when that pipeline
call throws, the loop consumes the pipeline invocation at `"unknow"`,
reports the failure to the error-notification path exactly twice — once
with the failure-context prefix and once with the generic webhook-failure
prefix — and continues with the remaining messages. -/
theorem webhook_unknow_double_report (w : World) (env : Env)
    (msg mp payload : JVal) (rest : List JVal) (s e : String)
    (devs : List Event)
    (hd : msg.get ("data") = JVal.str s) (hs : ¬ s = "")
    (hp : w.jsonParse s = Except.ok mp)
    (hpp : mp.get ("payload") = payload)
    (hpt : payload.truthy = true) (hpo : payload.typeofObject = true)
    (herr : handleApiRequest (some env) w (JVal.str ("unknow")) payload =
      (Except.error e, devs)) :
    processMessages (some env) w (msg :: rest) =
      ((processMessages (some env) w rest).1,
       (handleApiRequest (some env) w (JVal.str ("unknow")) payload).2
         ++ errDelegate (some env) w ("💥 handleApiRequest failed: " ++ e)
         ++ errDelegate (some env) w ("Ably webhook failed: " ++ e)
         ++ (processMessages (some env) w rest).2) ∧
    countErrDels
      (errDelegate (some env) w ("💥 handleApiRequest failed: " ++ e)
        ++ errDelegate (some env) w ("Ably webhook failed: " ++ e)) = 2 := by
  constructor
  · have hmsgnn : msg.nullish = false := get_str_not_nullish msg ("data") s hd
    have hdt : (JVal.str s).truthy = true := by
      have h0 : s.isEmpty = false :=
        Bool.eq_false_iff.mpr (fun hh => hs ((String.isEmpty_iff s).mp hh))
      simp [JVal.truthy, h0]
    have hone : processOne (some env) w msg =
        (Except.ok (),
         devs ++ errDelegate (some env) w ("💥 handleApiRequest failed: " ++ e)
              ++ errDelegate (some env) w ("Ably webhook failed: " ++ e)) := by
      simp [processOne, getEx_not_nullish msg ("data") hmsgnn, hd, hdt,
        JVal.jsToString, hp, hpp, hpt, hpo, herr]
    simp [processMessages, hone, herr, List.append_assoc]
  · rw [countErrDels_append, countErrDels_errDelegate, countErrDels_errDelegate]

/-- Webhook message fixture whose payload is valid but whose insert will
throw under `wBoom`. -/
def msgDD : JVal := JVal.obj [("data", JVal.str ("dd"))]

/-- JSON parser fixture for the C8 witness. -/
def parseBoom : String → Except String JVal := fun s =>
  if s = "dd" then Except.ok (JVal.obj [("payload", pHigh)])
  else Except.error ("z")

/-- World fixture whose storage insert throws with message `"boom"`. -/
def wBoom : World :=
  { jsonParse := parseBoom, dbError := some ("boom"), fetchFails := false }

/-- Claim C8 witness at concrete inputs: a message with a valid payload
whose insert throws `"boom"` makes the loop report exactly twice and
continue with the rest of the batch. -/
theorem webhook_unknow_double_report_witness :
    (wBoom.jsonParse ("dd") = Except.ok (JVal.obj [("payload", pHigh)]) ∧
     handleApiRequest (some envW) wBoom (JVal.str ("unknow")) pHigh =
       (Except.error ("boom"),
        [Event.insert (JVal.str ("svc")) (JVal.str ("ins")) (JVal.num 5)
           (JVal.str ("msg"))])) ∧
    processMessages (some envW) wBoom [msgDD] =
      ((processMessages (some envW) wBoom []).1,
       (handleApiRequest (some envW) wBoom (JVal.str ("unknow")) pHigh).2
         ++ errDelegate (some envW) wBoom ("💥 handleApiRequest failed: " ++ "boom")
         ++ errDelegate (some envW) wBoom ("Ably webhook failed: " ++ "boom")
         ++ (processMessages (some envW) wBoom []).2) ∧
    countErrDels
      (errDelegate (some envW) wBoom ("💥 handleApiRequest failed: " ++ "boom")
        ++ errDelegate (some envW) wBoom ("Ably webhook failed: " ++ "boom")) = 2 :=
  ⟨⟨rfl, rfl⟩,
   webhook_unknow_double_report wBoom envW msgDD
     (JVal.obj [("payload", pHigh)]) pHigh [] ("dd") ("boom")
     [Event.insert (JVal.str ("svc")) (JVal.str ("ins")) (JVal.num 5)
        (JVal.str ("msg"))]
     rfl (by decide) rfl rfl rfl rfl rfl⟩

/-- Message fixture whose payload lacks `level`. -/
def msgN : JVal := JVal.obj [("data", JVal.str ("dn"))]

/-- JSON parser fixture for the C3 batch. -/
def parseC3 : String → Except String JVal := fun s =>
  if s = "BODY3" then Except.ok (JVal.obj [("items", JVal.arr [msgN])])
  else if s = "dn" then Except.ok (JVal.obj [("payload", pNoLevel)])
  else Except.error ("z")

/-- World fixture for the C3 batch. -/
def wC3 : World := { jsonParse := parseC3, dbError := none, fetchFails := false }

/-- Webhook request fixture for the C3 batch. -/
def reqC3 : HttpRequest :=
  { method := "POST", path := "/ably", authHeader := none,
    ablyAuthHeader := some ("sec"), bodyText := "BODY3" }

/-- Claim C3 counterexample: a concrete authenticated webhook batch whose
single message has a payload missing `level`. The pipeline does NOT raise:
it returns the `MissingField` nack as an ordinary value, so the per-message
exception guard never fires and NOTHING is reported to the
error-notification path (zero `errDelegate` invocations in the whole run),
contradicting the claim that such a message is caught and reported. -/
theorem webhook_missing_field_not_reported_cex :
    pNoLevel.get ("level") = JVal.undef ∧
    handleAblyWebhook none wC3 envW reqC3 = (textResp 200 ("OK"), []) ∧
    countErrDels (handleAblyWebhook none wC3 envW reqC3).2 = 0 ∧
    (handleApiRequest (some envW) wC3 (JVal.str ("unknow")) pNoLevel).1 =
      Except.ok (nackResp (JVal.str ("unknow")) ("MissingField")
        ("Missing fields in payload: service, instance, level, message")) :=
  ⟨rfl, rfl, rfl, rfl⟩

/-- Claim C3 as amended: on a payload missing a required field the
Ingestion Pipeline RETURNS (rather than raises) the `MissingField` nack
with no side effects; on the webhook path the discarded nack means such a
message contributes nothing at all to the trace — no error notification,
no storage call — and the batch continues exactly as if the message were
not there. -/
theorem pipeline_missing_field_returns_nack (g : Option Env) (w : World)
    (rid payload msg mp : JVal) (rest : List JVal) (s : String)
    (hmiss : ¬ (payload.get ("service")).truthy = true ∨
             ¬ (payload.get ("instance")).truthy = true ∨
             (payload.get ("level")).isUndef = true ∨
             ¬ (payload.get ("message")).truthy = true)
    (hd : msg.get ("data") = JVal.str s) (hs : ¬ s = "")
    (hp : w.jsonParse s = Except.ok mp)
    (hpp : mp.get ("payload") = payload)
    (hpt : payload.truthy = true) (hpo : payload.typeofObject = true) :
    handleApiRequest g w rid payload =
      (Except.ok (nackResp rid ("MissingField")
        ("Missing fields in payload: service, instance, level, message")), []) ∧
    processMessages g w (msg :: rest) = processMessages g w rest := by
  have hnnp : payload.nullish = false := truthy_not_nullish payload hpt
  refine ⟨handleApiRequest_missing g w rid payload hnnp hmiss, ?_⟩
  have hmsgnn : msg.nullish = false := get_str_not_nullish msg ("data") s hd
  have hdt : (JVal.str s).truthy = true := by
    have h0 : s.isEmpty = false :=
      Bool.eq_false_iff.mpr (fun hh => hs ((String.isEmpty_iff s).mp hh))
    simp [JVal.truthy, h0]
  have hone : processOne g w msg = (Except.ok (), []) := by
    have h2 := handleApiRequest_missing g w (JVal.str ("unknow")) payload
      hnnp hmiss
    simp [processOne, getEx_not_nullish msg ("data") hmsgnn, hd, hdt,
      JVal.jsToString, hp, hpp, hpt, hpo, h2]
  simp [processMessages, hone]

/-- Claim C3 amended-theorem witness at concrete inputs: the level-less
payload makes the pipeline return the nack with an empty trace, and a batch
starting with that message processes exactly like the batch without it. -/
theorem pipeline_missing_field_returns_nack_witness :
    ((pNoLevel.get ("level")).isUndef = true ∧
     wC3.jsonParse ("dn") = Except.ok (JVal.obj [("payload", pNoLevel)])) ∧
    handleApiRequest (some envW) wC3 (JVal.str ("rq")) pNoLevel =
      (Except.ok (nackResp (JVal.str ("rq")) ("MissingField")
        ("Missing fields in payload: service, instance, level, message")), []) ∧
    processMessages (some envW) wC3 [msgN, msgN] =
      processMessages (some envW) wC3 [msgN] :=
  ⟨⟨rfl, rfl⟩,
   pipeline_missing_field_returns_nack (some envW) wC3 (JVal.str ("rq"))
     pNoLevel msgN (JVal.obj [("payload", pNoLevel)]) [msgN] ("dn")
     (Or.inr (Or.inr (Or.inl rfl))) rfl (by decide) rfl rfl rfl rfl⟩
